import Mathlib

/-!
Shallow embedding of the resource-graph builder in `src/lib/stack.ts`
(a CDK stack composing VPC, WAF, S3 bucket, RDS cluster, ElastiCache
cluster, ECS cluster, ACM certificate, load-balanced Fargate service,
CloudFront distribution and a Route53 record).  Each `create*` method of
the `Stack` class becomes a pure Lean function producing an immutable
descriptor; the constructor's sequential build pass becomes `buildStack`.
Deploy-time values (endpoint hostnames, secret values, ARNs) are tokens in
CDK; they are modelled as symbolic references, never as plain strings.
-/

namespace AwsStack

/-- Configuration surface of the stack: the two constants the README says
to configure (`HOSTED_ZONE_ID`, `ZONE_NAME` in `src/lib/stack.ts`). -/
structure Config where
  hostedZoneId : String
  zoneName : String
deriving DecidableEq, Repr

/-- The repository's literal constants: `HOSTED_ZONE_ID = "xxx"`,
`ZONE_NAME = "yyy.com"`. -/
def defaultConfig : Config := { hostedZoneId := "xxx", zoneName := "yyy.com" }

/-- `CONTAINER_PORT` constant. -/
def CONTAINER_PORT : Nat := 80

/-- `CONTAINER_HEALTHCHECK_PATH` constant. -/
def CONTAINER_HEALTHCHECK_PATH : String := "/foo/bar.html"

/-- An imported Route53 hosted zone (`route53.HostedZone.fromHostedZoneAttributes`). -/
structure HostedZone where
  hostedZoneId : String
  zoneName : String
deriving DecidableEq, Repr

/-- `importRoute53Zone`. -/
def importRoute53Zone (cfg : Config) : HostedZone :=
  { hostedZoneId := cfg.hostedZoneId, zoneName := cfg.zoneName }

/-- Subnet type of a VPC subnet tier (`ec2.SubnetType`). -/
inductive SubnetType where
  | publicSubnet
  | privateWithEgress
deriving DecidableEq, Repr

/-- One entry of the VPC `subnetConfiguration`. -/
structure SubnetConfig where
  cidrMask : Nat
  name : String
  subnetType : SubnetType
deriving DecidableEq, Repr

/-- The VPC descriptor (`ec2.Vpc`). -/
structure Vpc where
  maxAzs : Nat
  natGateways : Nat
  subnetConfiguration : List SubnetConfig
deriving DecidableEq, Repr

/-- `createVpc`. -/
def createVpc : Vpc :=
  { maxAzs := 2
  , natGateways := 1
  , subnetConfiguration :=
      [ { cidrMask := 24, name := "public", subnetType := .publicSubnet }
      , { cidrMask := 24, name := "private", subnetType := .privateWithEgress } ] }

/-- The S3 bucket descriptor (`s3.Bucket`, empty props). -/
structure Bucket where
  constructId : String
deriving DecidableEq, Repr

/-- `createBucket`. -/
def createBucket : Bucket := { constructId := "Bucket" }

/-- The ECS cluster descriptor (`ecs.Cluster`). -/
structure EcsCluster where
  constructId : String
deriving DecidableEq, Repr

/-- `createEcsCluster`. -/
def createEcsCluster : EcsCluster := { constructId := "Cluster" }

/-- One WAF rule of the web ACL: a managed rule-group statement with an
explicit priority, override-none action and a visibility metric. -/
structure WafRule where
  name : String
  priority : Nat
  overrideActionNone : Bool
  vendorName : String
  sampledRequestsEnabled : Bool
  cloudWatchMetricsEnabled : Bool
  metricName : String
deriving DecidableEq, Repr

/-- The WAF web ACL descriptor (`wafv2.CfnWebACL`). -/
structure WebAcl where
  defaultActionAllow : Bool
  aclScope : String
  rules : List WafRule
  metricName : String
deriving DecidableEq, Repr

/-- The four managed rule-set names listed in `createWafWebAcl`. -/
def wafManagedRuleNames : List String :=
  [ "AWSManagedRulesCommonRuleSet"
  , "AWSManagedRulesPHPRuleSet"
  , "AWSManagedRulesWordPressRuleSet"
  , "AWSManagedRulesSQLiRuleSet" ]

/-- The rule built for `name` at position `index` of the list:
`priority: index + 2`, `overrideAction: none`, managed rule group from
vendor AWS, metric named after the rule. -/
def mkWafRule (index : Nat) (name : String) : WafRule :=
  { name := name
  , priority := index + 2
  , overrideActionNone := true
  , vendorName := "AWS"
  , sampledRequestsEnabled := true
  , cloudWatchMetricsEnabled := true
  , metricName := name ++ "Metric" }

/-- `createWafWebAcl`: default allow, CLOUDFRONT scope, the four managed
rules with priorities `index + 2`. -/
def createWafWebAcl : WebAcl :=
  { defaultActionAllow := true
  , aclScope := "CLOUDFRONT"
  , rules := wafManagedRuleNames.enum.map fun p => mkWafRule p.1 p.2
  , metricName := "WebAcl" }

/-- The ACM certificate descriptor (`acm.Certificate`): primary domain,
subject alternative names, DNS validation delegated to a zone. -/
structure Certificate where
  domainName : String
  subjectAlternativeNames : List String
  validationZone : String
deriving DecidableEq, Repr

/-- `createCertificate`: primary name is the zone name, one wildcard SAN,
DNS validation against the zone. -/
def createCertificate (zone : HostedZone) : Certificate :=
  { domainName := zone.zoneName
  , subjectAlternativeNames := ["*." ++ zone.zoneName]
  , validationZone := zone.zoneName }

/-- An ingress rule of a security group: a source security-group identity
and a TCP port. -/
structure IngressRule where
  sourceSecurityGroup : String
  port : Nat
deriving DecidableEq, Repr

/-- A security group descriptor (`ec2.SecurityGroup`), with its ingress
rule set accumulated during the build pass. -/
structure SecurityGroup where
  constructId : String
  descriptionText : String
  ingressRules : List IngressRule
deriving DecidableEq, Repr

/-- `addIngressRule` on a security group: appends an ingress rule for the
given source identity and TCP port; a (source, port) pair already present
is not appended again. -/
def SecurityGroup.addIngressRule (sg : SecurityGroup) (source : String)
    (port : Nat) : SecurityGroup :=
  let r : IngressRule := { sourceSecurityGroup := source, port := port }
  if r ∈ sg.ingressRules then sg
  else { sg with ingressRules := sg.ingressRules ++ [r] }

/-- The RDS database cluster descriptor (`rds.DatabaseCluster`): Aurora
MySQL engine pin, one provisioned writer, provisioned readers, a default
schema name, and an attached security group.  The cluster generates its
own admin secret (`rdsCluster.secret`). -/
structure RdsCluster where
  engineVersion : String
  writerInstanceType : String
  readerInstanceTypes : List String
  defaultDatabaseName : String
  securityGroupIds : List String
  generatesSecret : Bool
deriving DecidableEq, Repr

/-- `createRdsCluster`: its own security group plus the Aurora MySQL
cluster with one writer, one reader, default database `mysql`. -/
def createRdsCluster : SecurityGroup × RdsCluster :=
  let sg : SecurityGroup :=
    { constructId := "RdsSecurityGroup"
    , descriptionText := "Security group for RDS cluster"
    , ingressRules := [] }
  let cluster : RdsCluster :=
    { engineVersion := "3.07.1"
    , writerInstanceType := "m7g.medium"
    , readerInstanceTypes := ["m7g.medium"]
    , defaultDatabaseName := "mysql"
    , securityGroupIds := ["RdsSecurityGroup"]
    , generatesSecret := true }
  (sg, cluster)

/-- The ElastiCache cluster descriptor (`elasticache.CfnCacheCluster`). -/
structure CacheCluster where
  engine : String
  engineVersion : String
  numCacheNodes : Nat
  cacheNodeType : String
  vpcSecurityGroupIds : List String
deriving DecidableEq, Repr

/-- `createCacheCluster`: its own security group plus the Redis cluster. -/
def createCacheCluster : SecurityGroup × CacheCluster :=
  let sg : SecurityGroup :=
    { constructId := "CacheSecurityGroup"
    , descriptionText := "Security group for Redis cache cluster"
    , ingressRules := [] }
  let cluster : CacheCluster :=
    { engine := "redis"
    , engineVersion := "7.0"
    , numCacheNodes := 2
    , cacheNodeType := "cache.t6g.large"
    , vpcSecurityGroupIds := ["CacheSecurityGroup"] }
  (sg, cluster)

/-- An environment-binding value of the container.  CDK resolves these at
deploy time: a `lit` is a plain string written in the source; `secretRef f`
is `rdsCluster.secret.secretValueFromJson(f).unsafeUnwrap()`, a dynamic
reference token into the cluster's generated secret; `attrRef a` is a
deploy-time attribute token such as an endpoint hostname. -/
inductive EnvValue where
  | lit : String → EnvValue
  | secretRef : String → EnvValue
  | attrRef : String → EnvValue
deriving DecidableEq, Repr

/-- Whether an environment value is an indirect reference into the
cluster's generated secret. -/
def EnvValue.isSecretRef : EnvValue → Bool
  | .secretRef _ => true
  | _ => false

/-- Whether an environment value is a plain string. -/
def EnvValue.isLit : EnvValue → Bool
  | .lit _ => true
  | _ => false

/-- A scaling policy attached to the scalable task count. -/
inductive ScalingPolicy where
  | cpuUtilization : Nat → ScalingPolicy
  | requestCount : Nat → ScalingPolicy
deriving DecidableEq, Repr

/-- The scalable task-count controller (`service.service.autoScaleTaskCount`)
with its attached scale-out policies. -/
structure ScalableTaskCount where
  minCapacity : Nat
  maxCapacity : Nat
  policies : List ScalingPolicy
deriving DecidableEq, Repr

/-- The load-balanced Fargate service descriptor
(`ecsPatterns.ApplicationLoadBalancedFargateService`) together with the
wiring done in `createLoadBalancedEcsService`: health check, scaling
controller, bucket grant.  `serviceSecurityGroupId` is the service's
network identity (`service.service.connections.securityGroups[0]`). -/
structure LoadBalancedService where
  memoryLimitMiB : Nat
  listenerPort : Nat
  imageAsset : String
  containerPort : Nat
  environment : List (String × EnvValue)
  desiredCount : Nat
  certificateDomain : String
  healthCheckPath : String
  serviceSecurityGroupId : String
  scaling : ScalableTaskCount
  bucketReadWriteGrants : List String
deriving DecidableEq, Repr

/-- `createLoadBalancedEcsService`: builds the Fargate service with its
environment bindings, configures the health check, back-wires ingress
rules into the RDS and cache security groups, attaches autoscaling, and
grants the task role read/write on the bucket.  Returns the service and
the two security groups with their appended rules. -/
def createLoadBalancedEcsService (_ecsCluster : EcsCluster)
    (_rdsCluster : RdsCluster) (_cacheCluster : CacheCluster)
    (rdsSecurityGroup : SecurityGroup) (cacheSecurityGroup : SecurityGroup)
    (certificate : Certificate) (bucket : Bucket) :
    LoadBalancedService × SecurityGroup × SecurityGroup :=
  let service : LoadBalancedService :=
    { memoryLimitMiB := 1024
    , listenerPort := 443
    , imageAsset := "./app"
    , containerPort := CONTAINER_PORT
    , environment :=
        [ ("DB_HOST", .attrRef "Database.clusterEndpoint.hostname")
        , ("DB_USER", .secretRef "username")
        , ("DB_PASSWORD", .secretRef "password")
        , ("DB_NAME", .lit "wordpress")
        , ("CACHE_HOST", .attrRef "CacheCluster.attrRedisEndpointAddress") ]
    , desiredCount := 2
    , certificateDomain := certificate.domainName
    , healthCheckPath := CONTAINER_HEALTHCHECK_PATH
    , serviceSecurityGroupId := "ServiceSecurityGroup"
    , scaling :=
        { minCapacity := 1
        , maxCapacity := 3
        , policies := [.cpuUtilization 50, .requestCount 10000] }
    , bucketReadWriteGrants := [bucket.constructId] }
  let rdsSg := rdsSecurityGroup.addIngressRule service.serviceSecurityGroupId 3306
  let cacheSg := cacheSecurityGroup.addIngressRule service.serviceSecurityGroupId 6379
  (service, rdsSg, cacheSg)

/-- Origin protocol policy of the edge distribution
(`cloudfront.OriginProtocolPolicy`). -/
inductive OriginProtocolPolicy where
  | httpOnly
  | httpsOnly
  | matchViewer
deriving DecidableEq, Repr

/-- Viewer protocol policy (`cloudfront.ViewerProtocolPolicy`). -/
inductive ViewerProtocolPolicy where
  | allowAll
  | redirectToHttps
  | httpsOnly
deriving DecidableEq, Repr

/-- The load-balancer origin of the distribution
(`origins.LoadBalancerV2Origin`): the origin offers both the plain port 80
and the secure port 443, and the protocol policy picks which is used. -/
structure LoadBalancerOrigin where
  loadBalancerOf : String
  protocolPolicy : OriginProtocolPolicy
  httpPort : Nat
  httpsPort : Nat
deriving DecidableEq, Repr

/-- The CloudFront distribution descriptor (`cloudfront.Distribution`).
`certificateDomains` records the one certificate attached by reference;
`webAclRef` the one web ACL ARN reference. -/
structure Distribution where
  origin : LoadBalancerOrigin
  viewerProtocolPolicy : ViewerProtocolPolicy
  allowedMethods : String
  cachedMethods : String
  domainNames : List String
  certificateRef : Option String
  webAclRef : Option String
deriving DecidableEq, Repr

/-- `createCloudfrontDistribution`: HTTPS-only origin over the service's
load balancer, redirect-to-HTTPS viewer policy, the zone name as the bound
domain, the certificate and the web ACL ARN attached by reference. -/
def createCloudfrontDistribution (zone : HostedZone)
    (certificate : Certificate) (_service : LoadBalancedService)
    (_wafWebAcl : WebAcl) : Distribution :=
  { origin :=
      { loadBalancerOf := "Service"
      , protocolPolicy := .httpsOnly
      , httpPort := 80
      , httpsPort := 443 }
  , viewerProtocolPolicy := .redirectToHttps
  , allowedMethods := "ALLOW_ALL"
  , cachedMethods := "CACHE_GET_HEAD_OPTIONS"
  , domainNames := [zone.zoneName]
  , certificateRef := some certificate.domainName
  , webAclRef := some "WebAcl.attrArn" }

/-- The Route53 alias record (`route53.ARecord`). -/
structure ARecord where
  aliasTarget : String
  zoneName : String
deriving DecidableEq, Repr

/-- `createRoute53Record`: an alias record in the zone pointing at the
distribution. -/
def createRoute53Record (zone : HostedZone) (_dist : Distribution) : ARecord :=
  { aliasTarget := "Distribution", zoneName := zone.zoneName }

/-- The finished resource graph: every descriptor built by the `Stack`
constructor, with the security groups in their final (post-back-wiring)
state. -/
structure Stack where
  zone : HostedZone
  vpc : Vpc
  wafWebAcl : WebAcl
  bucket : Bucket
  rdsSecurityGroup : SecurityGroup
  rdsCluster : RdsCluster
  cacheSecurityGroup : SecurityGroup
  cacheCluster : CacheCluster
  ecsCluster : EcsCluster
  certificate : Certificate
  service : LoadBalancedService
  distribution : Distribution
  dnsRecord : ARecord
deriving DecidableEq, Repr

/-- The `Stack` constructor: the fixed sequential build pass. -/
def buildStack (cfg : Config) : Stack :=
  let zone := importRoute53Zone cfg
  let vpc := createVpc
  let wafWebAcl := createWafWebAcl
  let bucket := createBucket
  let (rdsSecurityGroup0, rdsCluster) := createRdsCluster
  let (cacheSecurityGroup0, cacheCluster) := createCacheCluster
  let ecsCluster := createEcsCluster
  let certificate := createCertificate zone
  let (service, rdsSecurityGroup, cacheSecurityGroup) :=
    createLoadBalancedEcsService ecsCluster rdsCluster cacheCluster
      rdsSecurityGroup0 cacheSecurityGroup0 certificate bucket
  let distribution :=
    createCloudfrontDistribution zone certificate service wafWebAcl
  let dnsRecord := createRoute53Record zone distribution
  { zone := zone
  , vpc := vpc
  , wafWebAcl := wafWebAcl
  , bucket := bucket
  , rdsSecurityGroup := rdsSecurityGroup
  , rdsCluster := rdsCluster
  , cacheSecurityGroup := cacheSecurityGroup
  , cacheCluster := cacheCluster
  , ecsCluster := ecsCluster
  , certificate := certificate
  , service := service
  , distribution := distribution
  , dnsRecord := dnsRecord }

/-- The descriptors built by the `Stack` constructor, one per construct. -/
inductive Node where
  | zone
  | vpc
  | wafWebAcl
  | bucket
  | rdsSecurityGroup
  | rdsCluster
  | cacheSecurityGroup
  | cacheCluster
  | ecsCluster
  | certificate
  | service
  | distribution
  | dnsRecord
deriving DecidableEq, Repr

/-- All nodes of the graph, in build order. -/
def allNodes : List Node :=
  [ .zone, .vpc, .wafWebAcl, .bucket, .rdsSecurityGroup, .rdsCluster
  , .cacheSecurityGroup, .cacheCluster, .ecsCluster, .certificate
  , .service, .distribution, .dnsRecord ]

/-- Position of a node in the constructor's sequential build pass (the
security group of each data tier is created just before its cluster,
inside the same builder call). -/
def buildIndex : Node → Nat
  | .zone => 0
  | .vpc => 1
  | .wafWebAcl => 2
  | .bucket => 3
  | .rdsSecurityGroup => 4
  | .rdsCluster => 5
  | .cacheSecurityGroup => 6
  | .cacheCluster => 7
  | .ecsCluster => 8
  | .certificate => 9
  | .service => 10
  | .distribution => 11
  | .dnsRecord => 12

/-- Dependencies of each descriptor: the already-built descriptors passed
to (or referenced by) its builder call in the source. -/
def deps : Node → List Node
  | .zone => []
  | .vpc => []
  | .wafWebAcl => []
  | .bucket => []
  | .rdsSecurityGroup => [.vpc]
  | .rdsCluster => [.vpc, .rdsSecurityGroup]
  | .cacheSecurityGroup => [.vpc]
  | .cacheCluster => [.cacheSecurityGroup]
  | .ecsCluster => [.vpc]
  | .certificate => [.zone]
  | .service =>
      [ .ecsCluster, .rdsCluster, .cacheCluster, .rdsSecurityGroup
      , .cacheSecurityGroup, .certificate, .bucket ]
  | .distribution => [.zone, .certificate, .service, .wafWebAcl]
  | .dnsRecord => [.zone, .distribution]

/-- `dependsPath k a b`: there is a dependency path of length between 1
and `k` edges from `a` down to `b`. -/
def dependsPath : Nat → Node → Node → Bool
  | 0, _, _ => false
  | k + 1, a, b =>
      (deps a).any fun d => d = b || dependsPath k d b

/-- A list of naturals is strictly increasing from left to right. -/
def strictlyIncreasing : List Nat → Bool
  | [] => true
  | [_] => true
  | a :: b :: t => a < b && strictlyIncreasing (b :: t)

/-- Error raised when a firewall policy carries conflicting priorities. -/
inductive PolicyError where
  | policyConflictError
deriving DecidableEq, Repr

/-- Modelled from the spec: the general WebFirewallPolicy constructor is
not in `src/` (the source only ever builds one fixed rule list); per the
spec, "priorities must be unique and strictly ordered; violating this
fails with PolicyConflictError" before any resource is realized. -/
def mkWebFirewallPolicy (rules : List WafRule) : Except PolicyError WebAcl :=
  if strictlyIncreasing (rules.map (·.priority)) then
    .ok { defaultActionAllow := true
        , aclScope := "CLOUDFRONT"
        , rules := rules
        , metricName := "WebAcl" }
  else .error .policyConflictError

/-- A strictly increasing list of naturals is an ascending chain. -/
theorem strictlyIncreasing_chain (l : List Nat)
    (h : strictlyIncreasing l = true) : List.Chain' (· < ·) l := by
  induction l with
  | nil => exact List.chain'_nil
  | cons a t ih =>
      cases t with
      | nil => exact List.chain'_singleton a
      | cons b t' =>
          rw [strictlyIncreasing, Bool.and_eq_true, decide_eq_true_eq] at h
          exact List.Chain'.cons h.1 (ih h.2)

/-- A strictly increasing list of naturals has pairwise-distinct entries. -/
theorem strictlyIncreasing_pairwise_ne (l : List Nat)
    (h : strictlyIncreasing l = true) : l.Pairwise (· ≠ ·) :=
  (List.chain'_iff_pairwise.mp (strictlyIncreasing_chain l h)).imp Nat.ne_of_lt

/-- The configuration of Scenario A: zone name `example.com` (the task
counts 1 and 3 are the fixed values of the source). -/
def scenarioAConfig : Config :=
  { hostedZoneId := "Z0SCENARIOA", zoneName := "example.com" }

/-- C1: in every build, the database username and password enter the graph
only as indirect references into the cluster's generated secret — the
`DB_USER` and `DB_PASSWORD` bindings of the ManagedService's environment
are `secretRef` tokens, the secret references occur at exactly those two
keys, and neither credential binding is a plain string. -/
theorem credentials_never_plaintext (cfg : Config) :
    ((buildStack cfg).service.environment.lookup "DB_USER"
        = some (.secretRef "username")) ∧
    ((buildStack cfg).service.environment.lookup "DB_PASSWORD"
        = some (.secretRef "password")) ∧
    (((buildStack cfg).service.environment.filter
        (fun p => p.2.isSecretRef)).map Prod.fst
        = ["DB_USER", "DB_PASSWORD"]) ∧
    (((buildStack cfg).service.environment.filter
        (fun p => p.1 == "DB_USER" || p.1 == "DB_PASSWORD")).all
        (fun p => !p.2.isLit) = true) :=
  ⟨rfl, rfl, rfl, rfl⟩

/-- C2: the web ACL of the source has pairwise-distinct, strictly
increasing rule priorities and passes the WebFirewallPolicy priority
check; any rule list with a repeated priority (hence not pairwise
distinct) fails with PolicyConflictError before any resource is built. -/
theorem waf_priorities_distinct_and_conflict_fails :
    (strictlyIncreasing (createWafWebAcl.rules.map (·.priority)) = true) ∧
    ((createWafWebAcl.rules.map (·.priority)).Pairwise (· ≠ ·)) ∧
    (createWafWebAcl.rules.map (·.priority) = [2, 3, 4, 5]) ∧
    (mkWebFirewallPolicy createWafWebAcl.rules = .ok createWafWebAcl) ∧
    (∀ rules : List WafRule,
        ¬ (rules.map (·.priority)).Pairwise (· ≠ ·) →
        mkWebFirewallPolicy rules = .error .policyConflictError) := by
  refine ⟨by decide, by decide, by decide, rfl, ?_⟩
  intro rules hnd
  have h : strictlyIncreasing (rules.map (·.priority)) = false := by
    cases hc : strictlyIncreasing (rules.map (·.priority)) with
    | false => rfl
    | true => exact absurd (strictlyIncreasing_pairwise_ne _ hc) hnd
  simp [mkWebFirewallPolicy, h]

/-- Witness for C2: two rules at priority 2 (Scenario B) fail with
PolicyConflictError. -/
theorem waf_priorities_distinct_and_conflict_fails_witness :
    mkWebFirewallPolicy [mkWafRule 0 "RuleA", mkWafRule 0 "RuleB"]
      = .error .policyConflictError :=
  waf_priorities_distinct_and_conflict_fails.2.2.2.2
    [mkWafRule 0 "RuleA", mkWafRule 0 "RuleB"] (by decide)

/-- Counterexample to C3: for `{zoneName := "example.com"}` the
distribution's bound domain names are exactly `["example.com"]`; the
wildcard `*.example.com` is NOT among them, so no EdgeDistribution is
bound to both names. -/
theorem distribution_wildcard_not_bound :
    ((buildStack scenarioAConfig).distribution.domainNames
        = ["example.com"]) ∧
    ("*.example.com" ∉ (buildStack scenarioAConfig).distribution.domainNames) := by
  decide

/-- C3 (amended): for `{zoneName := "example.com"}` the graph contains
exactly one EdgeDistribution and exactly one TlsCertificate; the
distribution's bound domain names are exactly `["example.com"]`, every
bound name is covered by the certificate's domain set, and that set is
`{example.com, *.example.com}`. -/
theorem scenarioA_distribution_domains :
    ((allNodes.filter (fun n => n == Node.distribution)).length = 1) ∧
    ((allNodes.filter (fun n => n == Node.certificate)).length = 1) ∧
    ((buildStack scenarioAConfig).distribution.domainNames
        = ["example.com"]) ∧
    ((buildStack scenarioAConfig).certificate.domainName = "example.com") ∧
    ((buildStack scenarioAConfig).certificate.subjectAlternativeNames
        = ["*.example.com"]) ∧
    ((buildStack scenarioAConfig).distribution.domainNames.all
        (fun d =>
          (d == (buildStack scenarioAConfig).certificate.domainName) ||
          (buildStack scenarioAConfig).certificate.subjectAlternativeNames.contains d)
        = true) := by
  decide

/-- C4: after the build pass the RDS boundary admits the service's network
identity on 3306 and the cache boundary admits it on 6379; every rule's
source is the service identity, the service declared both boundaries as
dependencies, and neither final rule set contains duplicate
(source, port) pairs. -/
theorem security_boundaries_backwired (cfg : Config) :
    ((buildStack cfg).rdsSecurityGroup.ingressRules
        = [{ sourceSecurityGroup :=
               (buildStack cfg).service.serviceSecurityGroupId
           , port := 3306 }]) ∧
    ((buildStack cfg).cacheSecurityGroup.ingressRules
        = [{ sourceSecurityGroup :=
               (buildStack cfg).service.serviceSecurityGroupId
           , port := 6379 }]) ∧
    ((buildStack cfg).rdsSecurityGroup.ingressRules.Nodup) ∧
    ((buildStack cfg).cacheSecurityGroup.ingressRules.Nodup) ∧
    ((buildStack cfg).rdsSecurityGroup.ingressRules.all
        (fun r => r.sourceSecurityGroup
            == (buildStack cfg).service.serviceSecurityGroupId) = true) ∧
    ((buildStack cfg).cacheSecurityGroup.ingressRules.all
        (fun r => r.sourceSecurityGroup
            == (buildStack cfg).service.serviceSecurityGroupId) = true) ∧
    (Node.rdsSecurityGroup ∈ deps Node.service) ∧
    (Node.cacheSecurityGroup ∈ deps Node.service) :=
  ⟨rfl, rfl, List.nodup_singleton _, List.nodup_singleton _, rfl, rfl,
    by decide, by decide⟩

/-- C5: the build pass is the fixed sequence with build indices
0,…,12; every descriptor's dependencies have a strictly smaller build
index, and the dependency graph is acyclic (no node reaches itself by a
non-empty dependency path). -/
theorem build_order_strict_and_acyclic :
    (allNodes.map buildIndex
        = [0, 1, 2, 3, 4, 5, 6, 7, 8, 9, 10, 11, 12]) ∧
    (allNodes.all
        (fun n => (deps n).all fun d =>
          buildIndex d < buildIndex n) = true) ∧
    (allNodes.all
        (fun n => !dependsPath allNodes.length n n) = true) := by
  decide

/-- C6: the build pass is deterministic — two runs from identical
configurations yield structurally identical resource graphs. -/
theorem build_deterministic (cfg cfg' : Config) (h : cfg = cfg') :
    buildStack cfg = buildStack cfg' := by
  rw [h]

/-- Witness for C6: two runs on the repository's configuration agree. -/
theorem build_deterministic_witness :
    buildStack defaultConfig = buildStack defaultConfig :=
  build_deterministic defaultConfig defaultConfig rfl

/-- C7: the service's scaling controller is bound to [1, 3] and carries
exactly the two scale-out policies: CPU utilization target 50 and
10000 requests per target. -/
theorem autoscaling_bounds_and_policies (cfg : Config) :
    ((buildStack cfg).service.scaling.minCapacity = 1) ∧
    ((buildStack cfg).service.scaling.maxCapacity = 3) ∧
    ((buildStack cfg).service.scaling.policies
        = [.cpuUtilization 50, .requestCount 10000]) ∧
    ((buildStack cfg).service.scaling.policies.length = 2) :=
  ⟨rfl, rfl, rfl, rfl⟩

/-- C8: the distribution reaches its origin over HTTPS only (while the
origin offers ports 80 and 443), redirects all viewer traffic to HTTPS,
and has exactly one certificate and one web ACL attached by reference. -/
theorem distribution_encrypted_policies (cfg : Config) :
    ((buildStack cfg).distribution.origin.protocolPolicy
        = OriginProtocolPolicy.httpsOnly) ∧
    ((buildStack cfg).distribution.origin.httpPort = 80) ∧
    ((buildStack cfg).distribution.origin.httpsPort = 443) ∧
    ((buildStack cfg).distribution.viewerProtocolPolicy
        = ViewerProtocolPolicy.redirectToHttps) ∧
    ((buildStack cfg).distribution.certificateRef
        = some (buildStack cfg).certificate.domainName) ∧
    ((buildStack cfg).distribution.webAclRef = some "WebAcl.attrArn") :=
  ⟨rfl, rfl, rfl, rfl, rfl, rfl⟩

/-- C9: the schema name wired into the service's environment
(`DB_NAME = "wordpress"`) differs from the cluster's default schema name
(`"mysql"`). -/
theorem db_name_not_default_schema (cfg : Config) :
    ((buildStack cfg).service.environment.lookup "DB_NAME"
        = some (.lit "wordpress")) ∧
    ((buildStack cfg).rdsCluster.defaultDatabaseName = "mysql") ∧
    ((buildStack cfg).service.environment.lookup "DB_NAME"
        ≠ some (.lit (buildStack cfg).rdsCluster.defaultDatabaseName)) :=
  ⟨rfl, rfl, by
    show some (EnvValue.lit "wordpress") ≠ some (EnvValue.lit "mysql")
    decide⟩

/-- C10: the service's desired task count (2) lies within the scaling
controller's bounds: minCapacity ≤ desiredCount ≤ maxCapacity. -/
theorem desired_count_within_scaling_bounds (cfg : Config) :
    ((buildStack cfg).service.desiredCount = 2) ∧
    ((buildStack cfg).service.scaling.minCapacity
        ≤ (buildStack cfg).service.desiredCount) ∧
    ((buildStack cfg).service.desiredCount
        ≤ (buildStack cfg).service.scaling.maxCapacity) :=
  ⟨rfl, by show (1 : Nat) ≤ 2; decide, by show (2 : Nat) ≤ 3; decide⟩

end AwsStack
